import Mathlib

/-!
Verification of the email-worker subsystem of the booking-microservice
repository.  The definitions below are shallow embeddings of the Go source:

* `models.EmailJob` (email-worker/models, the queue-side job model with a
  UUID id, recipient, template reference, retry counters, tracked flag and
  timestamps) together with its JSON encoding used by the Redis queue;
* `queue.RedisQueue` (`Publish`, `Consume`, `PublishScheduled`,
  `ProcessScheduledJobs`) modelled over an explicit sorted-set state;
* `templates.Engine.renderText`, a faithful fragment of Go
  `text/template` parsing and execution covering the action shapes the
  engine can meet;
* `services.EmailService.SendEmail` / `SendEmailRequest.Validate` and the
  template repository `GetByName`;
* the retry handler `HandleRetry` with `calculateRetryDelay`, the
  provider chain `EmailService.SendEmail` (sendgrid then ses), and
  `EmailVerificationService.GeneratePinCode`.

Machine integers are modelled as `Int`/`Nat`; fallible Go code returns
`Option`/`Except`.
-/

namespace EmailWorker

/-! ### JSON fragment

`encoding/json` values, restricted to the shapes produced and consumed by
the `EmailJob` encoding: null, booleans, numbers, strings, and one level
of string-to-string object (the `template_data` map).  A JSON object is an
association list of key/value pairs; a Go `map[string]string` corresponds
to the unique key-sorted duplicate-free list (Go marshals map keys in
sorted order). -/

inductive JLeaf where
  | null : JLeaf
  | jbool : Bool → JLeaf
  | num : Int → JLeaf
  | str : String → JLeaf
  | strMap : List (String × String) → JLeaf
deriving DecidableEq, Repr

/-- A JSON object: association list of field name / value pairs. -/
abbrev JObj := List (String × JLeaf)

/-! ### models.EmailJob (email-worker/models/email_job.go, src/unnamed/part_009)

`uuid.UUID` is modelled by its canonical string form and `time.Time` by
its integer instant (RFC3339 formatting round-trips the instant).
`TemplateData *map[string]any` is modelled as an optional association
list of string pairs: every job constructed in the repository fills the
map from the proto `map<string,string>` field, so the values are
strings. -/

structure EmailJob where
  id : String
  jobType : String
  recipientEmail : String
  subject : Option String
  templateID : Option String
  templateData : Option (List (String × String))
  status : String
  priority : Int
  retryCount : Int
  maxRetries : Int
  scheduledAt : Option Int
  createdAt : Int
  updatedAt : Int
  isTracked : Bool
  queueID : String
  processingAt : Option Int
  completedAt : Option Int
deriving DecidableEq, Repr

/-- `json.Marshal` on a `*string` / nullable string field. -/
def optStr : Option String → JLeaf
  | none => JLeaf.null
  | some s => JLeaf.str s

/-- `json.Marshal` on a nullable time/number field. -/
def optNum : Option Int → JLeaf
  | none => JLeaf.null
  | some n => JLeaf.num n

/-- `json.Marshal` on the `TemplateData` pointer-to-map field. -/
def optMap : Option (List (String × String)) → JLeaf
  | none => JLeaf.null
  | some m => JLeaf.strMap m

/-- `json.Marshal(job)`: the JSON object with the struct's `json:` tags.
Field order follows the Go struct declaration, as `encoding/json` does. -/
def marshalEmailJob (j : EmailJob) : JObj :=
  [ ("id", JLeaf.str j.id)
  , ("job_type", JLeaf.str j.jobType)
  , ("recipient_email", JLeaf.str j.recipientEmail)
  , ("subject", optStr j.subject)
  , ("template_id", optStr j.templateID)
  , ("template_data", optMap j.templateData)
  , ("status", JLeaf.str j.status)
  , ("priority", JLeaf.num j.priority)
  , ("retry_count", JLeaf.num j.retryCount)
  , ("max_retries", JLeaf.num j.maxRetries)
  , ("scheduled_at", optNum j.scheduledAt)
  , ("created_at", JLeaf.num j.createdAt)
  , ("updated_at", JLeaf.num j.updatedAt)
  , ("is_tracked", JLeaf.jbool j.isTracked)
  , ("queue_id", JLeaf.str j.queueID)
  , ("processing_at", optNum j.processingAt)
  , ("completed_at", optNum j.completedAt) ]

/-- Field lookup in a JSON object (first binding wins, as `json.Unmarshal`
keeps the last for duplicates; objects built here have no duplicates). -/
def jGet (o : JObj) (k : String) : Option JLeaf :=
  match o with
  | [] => none
  | (k', v) :: rest => if k' = k then some v else jGet rest k

def asStr : JLeaf → Option String
  | JLeaf.str s => some s
  | _ => none

def asOptStr : JLeaf → Option (Option String)
  | JLeaf.null => some none
  | JLeaf.str s => some (some s)
  | _ => none

def asNum : JLeaf → Option Int
  | JLeaf.num n => some n
  | _ => none

def asOptNum : JLeaf → Option (Option Int)
  | JLeaf.null => some none
  | JLeaf.num n => some (some n)
  | _ => none

def asBool : JLeaf → Option Bool
  | JLeaf.jbool b => some b
  | _ => none

def asOptMap : JLeaf → Option (Option (List (String × String)))
  | JLeaf.null => some none
  | JLeaf.strMap m => some (some m)
  | _ => none

/-- Decoding of the identity/content fields of the job object. -/
def unmarshalContent (o : JObj) :
    Option (String × String × String × Option String × Option String ×
      Option (List (String × String))) := do
  let id ← (jGet o "id").bind asStr
  let jobType ← (jGet o "job_type").bind asStr
  let recipientEmail ← (jGet o "recipient_email").bind asStr
  let subject ← (jGet o "subject").bind asOptStr
  let templateID ← (jGet o "template_id").bind asOptStr
  let templateData ← (jGet o "template_data").bind asOptMap
  pure (id, jobType, recipientEmail, subject, templateID, templateData)

/-- Decoding of the status/priority/retry fields of the job object. -/
def unmarshalRetryState (o : JObj) :
    Option (String × Int × Int × Int × Option Int) := do
  let status ← (jGet o "status").bind asStr
  let priority ← (jGet o "priority").bind asNum
  let retryCount ← (jGet o "retry_count").bind asNum
  let maxRetries ← (jGet o "max_retries").bind asNum
  let scheduledAt ← (jGet o "scheduled_at").bind asOptNum
  pure (status, priority, retryCount, maxRetries, scheduledAt)

/-- Decoding of the timestamp/queue fields of the job object. -/
def unmarshalQueueMeta (o : JObj) :
    Option (Int × Int × Bool × String × Option Int × Option Int) := do
  let createdAt ← (jGet o "created_at").bind asNum
  let updatedAt ← (jGet o "updated_at").bind asNum
  let isTracked ← (jGet o "is_tracked").bind asBool
  let queueID ← (jGet o "queue_id").bind asStr
  let processingAt ← (jGet o "processing_at").bind asOptNum
  let completedAt ← (jGet o "completed_at").bind asOptNum
  pure (createdAt, updatedAt, isTracked, queueID, processingAt, completedAt)

/-- `json.Unmarshal(data, &job)`: reads each tagged field back; a field of
the wrong JSON shape is a decode error (`none`). -/
def unmarshalEmailJob (o : JObj) : Option EmailJob := do
  let (id, jobType, recipientEmail, subject, templateID, templateData) ←
    unmarshalContent o
  let (status, priority, retryCount, maxRetries, scheduledAt) ←
    unmarshalRetryState o
  let (createdAt, updatedAt, isTracked, queueID, processingAt, completedAt) ←
    unmarshalQueueMeta o
  pure { id := id, jobType := jobType, recipientEmail := recipientEmail
       , subject := subject, templateID := templateID
       , templateData := templateData, status := status
       , priority := priority, retryCount := retryCount
       , maxRetries := maxRetries, scheduledAt := scheduledAt
       , createdAt := createdAt, updatedAt := updatedAt
       , isTracked := isTracked, queueID := queueID
       , processingAt := processingAt, completedAt := completedAt }

/-- Serialisation followed by deserialisation restores every field. -/
theorem unmarshal_marshal (j : EmailJob) :
    unmarshalEmailJob (marshalEmailJob j) = some j := by
  cases j with
  | mk id jobType recipientEmail subject templateID templateData status
      priority retryCount maxRetries scheduledAt createdAt updatedAt
      isTracked queueID processingAt completedAt =>
    cases subject <;> cases templateID <;> cases templateData <;>
      cases scheduledAt <;> cases processingAt <;> cases completedAt <;>
      rfl

/-- The JSON encoding separates distinct jobs. -/
theorem marshal_injective {j₁ j₂ : EmailJob}
    (h : marshalEmailJob j₁ = marshalEmailJob j₂) : j₁ = j₂ := by
  have h1 := unmarshal_marshal j₁
  rw [h, unmarshal_marshal j₂] at h1
  exact (Option.some.inj h1).symm

/-- A Go `map[string]string` is represented by its canonical association
list: keys strictly increasing (hence duplicate-free), the order
`json.Marshal` emits. -/
def sortedKeys : List (String × String) → Bool
  | [] => true
  | [_] => true
  | a :: b :: t => decide (a.1 < b.1) && sortedKeys (b :: t)

/-- The job's `TemplateData` list is the canonical form of a map. -/
def tdCanonical (j : EmailJob) : Bool :=
  match j.templateData with
  | none => true
  | some kvs => sortedKeys kvs

/-! ### queue.RedisQueue (email-worker/queue/redis_queue.go)

The backing store is a Redis sorted set per queue: a set of members (the
JSON-serialised jobs), each with a score.  `ZADD` inserts a member or
updates its score, `ZPOPMIN` removes and returns a member with the least
score, `ZRANGEBYSCORE` selects by score range, `ZREM` deletes a member.
Redis breaks score ties by the lexicographic order of the member strings;
no theorem below depends on the order of tied members, and the model
takes the first entry with the least score. -/

structure ZEntry where
  score : Int
  member : JObj
deriving DecidableEq, Repr

/-- `ZADD key score member`. -/
def zadd (q : List ZEntry) (s : Int) (m : JObj) : List ZEntry :=
  if q.any (fun e => decide (e.member = m)) then
    q.map (fun e => if e.member = m then ZEntry.mk s m else e)
  else
    q ++ [ZEntry.mk s m]

/-- `ZPOPMIN key 1`. -/
def zpopMin : List ZEntry → Option (ZEntry × List ZEntry)
  | [] => none
  | e :: es =>
    match zpopMin es with
    | none => some (e, [])
    | some (m, rest) =>
      if e.score ≤ m.score then some (e, es) else some (m, e :: rest)

/-- `ZREM key member`. -/
def zrem (q : List ZEntry) (m : JObj) : List ZEntry :=
  q.filter (fun e => decide (e.member ≠ m))

/-! Job priorities, from the `JobPriority` enum of the email-worker proto
(src/unnamed/part_006); `grpc/server.go` copies the enum value into
`EmailJob.Priority` via `SetPriority(int(req.Priority))`. -/

def PRIORITY_LOW : Int := 0
def PRIORITY_NORMAL : Int := 1
def PRIORITY_HIGH : Int := 2
def PRIORITY_URGENT : Int := 3

/-- The score `Publish` assigns: `time.Now().Unix()`, lowered by
`priority*1000` for positive priorities so that higher-priority jobs are
popped first. -/
def publishScore (now priority : Int) : Int :=
  if priority > 0 then now - priority * 1000 else now

/-- `RedisQueue.Publish`: marshal the job and `ZADD` it with its priority
score. -/
def publish (now : Int) (job : EmailJob) (q : List ZEntry) : List ZEntry :=
  zadd q (publishScore now job.priority) (marshalEmailJob job)

/-- `RedisQueue.Consume`: `ZPOPMIN`, then unmarshal; an empty queue is
the `ErrQueueEmpty` sentinel (`none`), an undecodable member an error. -/
def consume (q : List ZEntry) : Option (EmailJob × List ZEntry) :=
  match zpopMin q with
  | none => none
  | some (e, rest) =>
    match unmarshalEmailJob e.member with
    | none => none
    | some job => some (job, rest)

/-- Repeated `Consume`, recording the priorities of the returned jobs. -/
def drainPriorities : Nat → List ZEntry → List Int
  | 0, _ => []
  | n + 1, q =>
    match consume q with
    | none => []
    | some (job, rest) => job.priority :: drainPriorities n rest

/-- The immediate queue (`queueName`) and the scheduled queue
(`queueName:scheduled`) of one `RedisQueue`. -/
structure QueueState where
  main : List ZEntry
  sched : List ZEntry
deriving DecidableEq, Repr

/-- `RedisQueue.PublishScheduled`: `ZADD` into the scheduled queue with
the target instant as score. -/
def publishScheduled (job : EmailJob) (scheduledAt : Int)
    (st : QueueState) : QueueState :=
  QueueState.mk st.main (zadd st.sched scheduledAt (marshalEmailJob job))

/-- `RedisQueue.ProcessScheduledJobs`: select every scheduled member with
score in `[0, now]`, and for each one unmarshal it (skipping undecodable
members), `Publish` it into the main queue, then `ZREM` it from the
scheduled queue. -/
def processScheduledJobs (now : Int) (st : QueueState) : QueueState :=
  let due := st.sched.filter
    (fun e => decide (0 ≤ e.score) && decide (e.score ≤ now))
  due.foldl
    (fun s e =>
      match unmarshalEmailJob e.member with
      | none => s
      | some job =>
        QueueState.mk (publish now job s.main) (zrem s.sched e.member))
    st

/-- Higher priority gives a strictly smaller score at the same instant. -/
theorem publishScore_lt (t : Int) {p₁ p₂ : Int} (h0 : 0 ≤ p₂)
    (h : p₂ < p₁) : publishScore t p₁ < publishScore t p₂ := by
  simp only [publishScore]
  split_ifs <;> omega

/-- Publishing two distinct jobs into the empty queue appends both. -/
theorem publish_two (t : Int) {j₁ j₂ : EmailJob} (h : j₁ ≠ j₂) :
    publish t j₂ (publish t j₁ []) =
      [ZEntry.mk (publishScore t j₁.priority) (marshalEmailJob j₁),
       ZEntry.mk (publishScore t j₂.priority) (marshalEmailJob j₂)] := by
  have hm : ¬ (marshalEmailJob j₁ = marshalEmailJob j₂) :=
    fun he => h (marshal_injective he)
  simp [publish, zadd, hm]

/-- A sample job, used to instantiate the queue theorems at each proto
priority; the id doubles as the job type so that distinct samples have
distinct serialisations. -/
def sampleJob (ident : String) (p : Int) : EmailJob :=
  { id := ident, jobType := ident, recipientEmail := "user@example.com"
  , subject := none, templateID := some "welcome", templateData := none
  , status := "pending", priority := p, retryCount := 0, maxRetries := 3
  , scheduledAt := none, createdAt := 1700000000, updatedAt := 1700000000
  , isTracked := false, queueID := "", processingAt := none
  , completedAt := none }

/-- C1: jobs of priorities urgent, high, normal and low published at the
same instant are consumed in the order urgent, high, normal, low;
in general, of two jobs published at the same instant, the one with the
higher-ranked priority is consumed first, whichever was published first. -/
theorem c1_dequeue_priority_order :
    (drainPriorities 4
        (publish 1700000000 (sampleJob "l" PRIORITY_LOW)
          (publish 1700000000 (sampleJob "n" PRIORITY_NORMAL)
            (publish 1700000000 (sampleJob "h" PRIORITY_HIGH)
              (publish 1700000000 (sampleJob "u" PRIORITY_URGENT) [])))) =
      [PRIORITY_URGENT, PRIORITY_HIGH, PRIORITY_NORMAL, PRIORITY_LOW])
    ∧ ∀ (t : Int) (j₁ j₂ : EmailJob), 0 ≤ j₂.priority →
        j₂.priority < j₁.priority →
        (consume (publish t j₂ (publish t j₁ []))).map Prod.fst = some j₁
        ∧ (consume (publish t j₁ (publish t j₂ []))).map Prod.fst =
            some j₁ := by
  constructor
  · rfl
  · intro t j₁ j₂ h0 hlt
    have hne : j₁ ≠ j₂ := by
      intro he
      rw [he] at hlt
      exact lt_irrefl _ hlt
    have hs : publishScore t j₁.priority < publishScore t j₂.priority :=
      publishScore_lt t h0 hlt
    constructor
    · rw [publish_two t hne]
      simp [consume, zpopMin, unmarshal_marshal, le_of_lt hs]
    · rw [publish_two t hne.symm]
      simp [consume, zpopMin, unmarshal_marshal, not_le.mpr hs]

/-- Witness for C1: an urgent and a high job published at instant 5. -/
theorem c1_dequeue_priority_order_witness :
    (0 : Int) ≤ (sampleJob "h" PRIORITY_HIGH).priority
    ∧ (sampleJob "h" PRIORITY_HIGH).priority <
        (sampleJob "u" PRIORITY_URGENT).priority
    ∧ (consume (publish 5 (sampleJob "h" PRIORITY_HIGH)
          (publish 5 (sampleJob "u" PRIORITY_URGENT) []))).map Prod.fst =
        some (sampleJob "u" PRIORITY_URGENT) :=
  ⟨by decide, by decide,
    (c1_dequeue_priority_order.2 5 (sampleJob "u" PRIORITY_URGENT)
      (sampleJob "h" PRIORITY_HIGH) (by decide) (by decide)).1⟩

/-- C9: publishing a job and consuming it from an otherwise empty queue
returns the job with every field intact — the queue's JSON serialisation
composed with deserialisation is the identity.  The hypothesis restricts
the model's template-data list to the canonical (key-sorted) form that
represents a Go map. -/
theorem c9_publish_consume_roundtrip (now : Int) (j : EmailJob)
    (_hc : tdCanonical j = true) :
    consume (publish now j []) = some (j, []) := by
  simp [consume, publish, zadd, zpopMin, unmarshal_marshal]

/-- Witness for C9: a concrete verification job round-trips. -/
theorem c9_publish_consume_roundtrip_witness :
    tdCanonical (sampleJob "v" PRIORITY_HIGH) = true
    ∧ consume (publish 1700000000 (sampleJob "v" PRIORITY_HIGH) []) =
        some (sampleJob "v" PRIORITY_HIGH, []) :=
  ⟨by decide,
    c9_publish_consume_roundtrip 1700000000 (sampleJob "v" PRIORITY_HIGH)
      (by decide)⟩

/-- C8: for a job whose scheduled instant is at or before `now`, running
`ProcessScheduledJobs` twice moves it into the immediate queue exactly
once: afterwards the immediate queue holds one entry for the job and the
scheduled queue none. -/
theorem c8_promote_due_idempotent (now s : Int) (j : EmailJob)
    (h0 : 0 ≤ s) (h1 : s ≤ now) :
    processScheduledJobs now (processScheduledJobs now
        (QueueState.mk [] [ZEntry.mk s (marshalEmailJob j)])) =
      QueueState.mk
        [ZEntry.mk (publishScore now j.priority) (marshalEmailJob j)]
        [] := by
  have hstep : processScheduledJobs now
      (QueueState.mk [] [ZEntry.mk s (marshalEmailJob j)]) =
      QueueState.mk
        [ZEntry.mk (publishScore now j.priority) (marshalEmailJob j)]
        [] := by
    simp [processScheduledJobs, publish, zadd, zrem, unmarshal_marshal,
      h0, h1]
  rw [hstep]
  simp [processScheduledJobs]

/-- Witness for C8: a job due at instant 10, promoted at instant 20. -/
theorem c8_promote_due_idempotent_witness :
    (0 : Int) ≤ 10 ∧ (10 : Int) ≤ 20
    ∧ processScheduledJobs 20 (processScheduledJobs 20
        (QueueState.mk []
          [ZEntry.mk 10 (marshalEmailJob (sampleJob "w" PRIORITY_NORMAL))])) =
      QueueState.mk
        [ZEntry.mk (publishScore 20 (sampleJob "w" PRIORITY_NORMAL).priority)
          (marshalEmailJob (sampleJob "w" PRIORITY_NORMAL))]
        [] :=
  ⟨by decide, by decide,
    c8_promote_due_idempotent 20 10 (sampleJob "w" PRIORITY_NORMAL)
      (by decide) (by decide)⟩

/-! ### templates.Engine (email-worker/templates/engine.go)

`Engine.renderText` parses the template with Go `text/template`
(`template.New("text").Funcs(e.funcMap).Parse(tmpl)`) and executes it on
the variable map.  In that syntax an action is delimited by double
braces; inside an action, `.ident` reads the field/key `ident` of the
data, while a bare identifier is a call of a function of the function
map, and a call of a function that is not in the map is rejected when
the template is parsed.  Executing a key access on a map that lacks the
key prints the zero `reflect.Value` as the text `<no value>`.  The model
below covers exactly those action shapes (literal text, `.ident`
accesses, bare-identifier calls); action shapes beyond the fragment are
mapped to parse errors. -/

/-- The engine's function map keys (`formatDate`, `formatCurrency`). -/
def funcMapNames : List String := ["formatDate", "formatCurrency"]

/-- A parsed template node: literal text, a key access, or a call of a
function-map function. -/
inductive Seg where
  | lit : List Char → Seg
  | keyAccess : String → Seg
  | fnCall : String → Seg
deriving DecidableEq, Repr

def isIdentChar (c : Char) : Bool := c.isAlphanum || c = '_'

/-- A Go template identifier: a letter or underscore followed by
letters, digits and underscores. -/
def isIdent : List Char → Bool
  | [] => false
  | c :: cs => (c.isAlpha || c = '_') && cs.all isIdentChar

def isSpaceChar (c : Char) : Bool :=
  c = ' ' || c = '\t' || c = '\n' || c = '\r'

/-- Whitespace around the tokens of an action is insignificant. -/
def trimChars (cs : List Char) : List Char :=
  ((cs.dropWhile isSpaceChar).reverse.dropWhile isSpaceChar).reverse

/-- Read an action body up to the closing double brace; `none` when the
action is not closed. -/
def splitAction : List Char → Option (List Char × List Char)
  | [] => none
  | '\x7d' :: '\x7d' :: rest => some ([], rest)
  | c :: rest =>
    match splitAction rest with
    | none => none
    | some (inner, rest') => some (c :: inner, rest')

/-- Classify one action body, as `text/template` parsing does: `.ident`
is a key access; a bare identifier is a function call, rejected at parse
time when the identifier is not a function of the map. -/
def classifyAction (inner : List Char) : Except String Seg :=
  match trimChars inner with
  | '.' :: rest =>
    if isIdent rest then Except.ok (Seg.keyAccess (String.mk rest))
    else Except.error ("template: unexpected ." ++ String.mk rest)
  | a =>
    if isIdent a then
      if funcMapNames.contains (String.mk a) then
        Except.ok (Seg.fnCall (String.mk a))
      else
        Except.error ("template: function " ++ String.mk a ++
          " not defined")
    else Except.error ("template: unexpected " ++ String.mk a)

/-- Template parsing: literal characters, and actions opened by a double
brace.  The fuel is the remaining input length plus one, so it never
runs out on a top-level call. -/
def parseSegs : Nat → List Char → Except String (List Seg)
  | 0, _ => Except.error "template: out of fuel"
  | _ + 1, [] => Except.ok []
  | fuel + 1, '\x7b' :: '\x7b' :: rest =>
    (match splitAction rest with
     | none => Except.error "template: unclosed action"
     | some (inner, rest') =>
       match classifyAction inner, parseSegs fuel rest' with
       | Except.error e, _ => Except.error e
       | _, Except.error e => Except.error e
       | Except.ok seg, Except.ok segs => Except.ok (seg :: segs))
  | fuel + 1, c :: rest =>
    match parseSegs fuel rest with
    | Except.error e => Except.error e
    | Except.ok segs => Except.ok (Seg.lit [c] :: segs)

/-- Lookup in the variable map (Go `variables[key]`). -/
def lookupVar (vars : List (String × String)) (k : String) : Option String :=
  match vars with
  | [] => none
  | (k', v) :: rest => if k' = k then some v else lookupVar rest k

/-- Execute one node: a key access on a map without the key prints
`<no value>`; a zero-argument call of a function-map function is an
execution error (both map functions take arguments). -/
def execSeg (vars : List (String × String)) : Seg → Except String String
  | Seg.lit cs => Except.ok (String.mk cs)
  | Seg.keyAccess k =>
    match lookupVar vars k with
    | some v => Except.ok v
    | none => Except.ok "<no value>"
  | Seg.fnCall f =>
    Except.error ("template: wrong number of args for " ++ f)

def execSegs (vars : List (String × String)) :
    List Seg → Except String String
  | [] => Except.ok ""
  | s :: rest =>
    match execSeg vars s, execSegs vars rest with
    | Except.error e, _ => Except.error e
    | _, Except.error e => Except.error e
    | Except.ok a, Except.ok b => Except.ok (a ++ b)

/-- `Engine.renderText`: parse, then execute on the variable map, with
the engine's error wrapping. -/
def renderText (tmpl : String) (vars : List (String × String)) :
    Except String String :=
  match parseSegs (tmpl.data.length + 1) tmpl.data with
  | Except.error e => Except.error ("failed to parse text template: " ++ e)
  | Except.ok segs =>
    match execSegs vars segs with
    | Except.error e =>
      Except.error ("failed to execute text template: " ++ e)
    | Except.ok out => Except.ok out

/-- C4 counterexample: rendering the template `Hello {{name}}` does not
succeed for any of the two claimed variable maps — `name` is read as an
undefined template function and parsing fails — so it yields neither
`Hello Ana` nor `Hello `. -/
theorem c4_render_counterexample :
    (renderText "Hello \x7b\x7bname\x7d\x7d" [("name", "Ana")]).isOk = false
    ∧ (renderText "Hello \x7b\x7bname\x7d\x7d" []).isOk = false := by
  constructor <;> rfl

/-- C4 amended: the engine uses Go template syntax.  `Hello {{name}}`
fails to parse (function `name` not defined) with or without the `name`
variable; the Go-syntax template `Hello {{.name}}` with `name = Ana`
renders to `Hello Ana`, and with a map lacking the key it renders to
`Hello <no value>` rather than `Hello `. -/
theorem c4_render_amended :
    (renderText "Hello \x7b\x7bname\x7d\x7d" [("name", "Ana")]).isOk = false
    ∧ (renderText "Hello \x7b\x7bname\x7d\x7d" []).isOk = false
    ∧ renderText "Hello \x7b\x7b.name\x7d\x7d" [("name", "Ana")] =
        Except.ok "Hello Ana"
    ∧ renderText "Hello \x7b\x7b.name\x7d\x7d" [] =
        Except.ok "Hello <no value>" := by
  exact ⟨rfl, rfl, rfl, rfl⟩

/-! ### Provider chain (src/unnamed/part_004, `EmailService.SendEmail`)

The chain tries the primary provider (`providers["sendgrid"]`); on its
success the result is returned at once.  On its failure a warning naming
the primary error is logged and the fallback (`providers["ses"]`) is
tried; if the fallback also fails, the chain returns
`all providers failed` wrapping the last error.  A provider's outcome on
the email being sent is a value of `Except String EmailResult`; the
model also returns the log lines written and the providers attempted, in
order. -/

structure EmailResult where
  provider : String
  messageId : String
deriving DecidableEq, Repr

namespace ProviderChain

def sendEmail (sendgrid ses : Except String EmailResult) :
    Except String EmailResult × List String × List String :=
  match sendgrid with
  | Except.ok result => (Except.ok result, [], ["sendgrid"])
  | Except.error e1 =>
    match ses with
    | Except.ok result =>
      (Except.ok result, ["Primary provider failed, trying fallback: " ++ e1],
       ["sendgrid", "ses"])
    | Except.error e2 =>
      (Except.error ("all providers failed: " ++ e2),
       ["Primary provider failed, trying fallback: " ++ e1],
       ["sendgrid", "ses"])

end ProviderChain

/-- C5: the chain tries providers in configured order and short-circuits
on the first success: when the primary succeeds the fallback is never
attempted and the primary's result is returned with nothing logged; when
the primary fails and the fallback succeeds, the fallback's message ID is
returned and the primary's failure is only logged, not surfaced; when
every provider fails, the chain returns an aggregate error naming the
last provider error. -/
theorem c5_provider_failover (sendgrid ses : Except String EmailResult) :
    (∀ r, sendgrid = Except.ok r →
      ProviderChain.sendEmail sendgrid ses =
        (Except.ok r, [], ["sendgrid"]))
    ∧ (∀ e1 r, sendgrid = Except.error e1 → ses = Except.ok r →
      ProviderChain.sendEmail sendgrid ses =
        (Except.ok r, ["Primary provider failed, trying fallback: " ++ e1],
         ["sendgrid", "ses"]))
    ∧ (∀ e1 e2, sendgrid = Except.error e1 → ses = Except.error e2 →
      ProviderChain.sendEmail sendgrid ses =
        (Except.error ("all providers failed: " ++ e2),
         ["Primary provider failed, trying fallback: " ++ e1],
         ["sendgrid", "ses"])) := by
  refine ⟨?_, ?_, ?_⟩
  · intro r h
    rw [h]
    rfl
  · intro e1 r h1 h2
    rw [h1, h2]
    rfl
  · intro e1 e2 h1 h2
    rw [h1, h2]
    rfl

/-- Witness for C5: provider A always fails, provider B always succeeds;
the chain returns B's message ID and only logs A's failure. -/
theorem c5_provider_failover_witness :
    Except.error "A down" =
        (Except.error "A down" : Except String EmailResult)
    ∧ Except.ok (EmailResult.mk "ses" "msg-42") =
        (Except.ok (EmailResult.mk "ses" "msg-42") :
          Except String EmailResult)
    ∧ ProviderChain.sendEmail (Except.error "A down")
        (Except.ok (EmailResult.mk "ses" "msg-42")) =
      (Except.ok (EmailResult.mk "ses" "msg-42"),
       ["Primary provider failed, trying fallback: A down"],
       ["sendgrid", "ses"]) :=
  ⟨rfl, rfl,
    (c5_provider_failover (Except.error "A down")
        (Except.ok (EmailResult.mk "ses" "msg-42"))).2.1
      "A down" (EmailResult.mk "ses" "msg-42") rfl rfl⟩

/-! ### Retry/backoff controller (src/unnamed/part_004,
`RetryHandler.HandleRetry` and `calculateRetryDelay`)

`HandleRetry` is invoked after a failed delivery attempt.  When the
job's retry count is below its bound it computes the exponential-backoff
delay from the pre-increment count, schedules the retry, and increments
the retry count; otherwise the job moves to the dead-letter state.  The
bodies of `scheduler.ScheduleRetry` and `moveToDeadLetterQueue` are not
part of the repository source; they are modelled from the spec (section
4.5): a scheduled retry re-inserts the job into the scheduled space
keyed by now + delay with its status reset to pending, and the
dead-letter move marks the job failed with the final error and does not
re-queue it.  Durations are in seconds (`time.Minute` = 60). -/

structure RetryJob where
  retryCount : Nat
  maxRetries : Nat
  status : String
  errorMessage : String
deriving DecidableEq, Repr

/-- `calculateRetryDelay`: `2^retryCount` minutes, in seconds. -/
def calculateRetryDelay (retryCount : Nat) : Nat := 2 ^ retryCount * 60

/-- `RetryHandler.HandleRetry`: returns the updated job and the updated
scheduled space (a list of fire-instant/job pairs). -/
def handleRetry (now : Nat) (j : RetryJob) (err : String)
    (sched : List (Nat × RetryJob)) : RetryJob × List (Nat × RetryJob) :=
  if j.retryCount < j.maxRetries then
    let delay := calculateRetryDelay j.retryCount
    let j1 := { j with retryCount := j.retryCount + 1, status := "pending" }
    (j1, sched ++ [(now + delay, j1)])
  else
    ({ j with status := "failed", errorMessage := err }, sched)

/-- C2: on a delivery failure, if the incremented attempt counter would
exceed the bound the job is marked failed with the final error and the
scheduled space is untouched (no re-queue); otherwise the job re-enters
the scheduled space keyed now + 60·2^(attempt−1) seconds (attempt being
the incremented counter) with status reset to pending. -/
theorem c2_retry_backoff (now : Nat) (j : RetryJob) (err : String)
    (sched : List (Nat × RetryJob)) :
    (j.retryCount + 1 > j.maxRetries →
      handleRetry now j err sched =
        ({ j with status := "failed", errorMessage := err }, sched))
    ∧ (j.retryCount + 1 ≤ j.maxRetries →
      ((handleRetry now j err sched).1.status = "pending"
       ∧ (handleRetry now j err sched).1.retryCount = j.retryCount + 1
       ∧ (handleRetry now j err sched).2 =
          sched ++ [(now + 60 * 2 ^ (j.retryCount + 1 - 1),
            (handleRetry now j err sched).1)])) := by
  constructor
  · intro h
    have h' : ¬ (j.retryCount < j.maxRetries) := by omega
    simp [handleRetry, h']
  · intro h
    have h' : j.retryCount < j.maxRetries := by omega
    simp [handleRetry, h', calculateRetryDelay, Nat.mul_comm]

/-- Witness for C2: both branches at concrete jobs (one attempt left,
and bound already reached). -/
theorem c2_retry_backoff_witness :
    ((RetryJob.mk 2 3 "processing" "").retryCount + 1 ≤
        (RetryJob.mk 2 3 "processing" "").maxRetries
      ∧ (handleRetry 100 (RetryJob.mk 2 3 "processing" "") "boom" []).1.status
          = "pending"
      ∧ (handleRetry 100 (RetryJob.mk 2 3 "processing" "") "boom" []).1.retryCount
          = 3
      ∧ (handleRetry 100 (RetryJob.mk 2 3 "processing" "") "boom" []).2 =
          [] ++ [(100 + 60 * 2 ^ (2 + 1 - 1),
            (handleRetry 100 (RetryJob.mk 2 3 "processing" "") "boom" []).1)])
    ∧ ((RetryJob.mk 3 3 "processing" "").retryCount + 1 >
        (RetryJob.mk 3 3 "processing" "").maxRetries
      ∧ handleRetry 100 (RetryJob.mk 3 3 "processing" "") "boom" [] =
          ({ RetryJob.mk 3 3 "processing" "" with
              status := "failed", errorMessage := "boom" }, [])) :=
  ⟨⟨by decide,
    (c2_retry_backoff 100 (RetryJob.mk 2 3 "processing" "") "boom" []).2
      (by decide)⟩,
   ⟨by decide,
    (c2_retry_backoff 100 (RetryJob.mk 3 3 "processing" "") "boom" []).1
      (by decide)⟩⟩

/-! ### Job lifecycle (src/unnamed/part_005 `EmailService.ProcessEmailJob`
and `RetryFailedJob`, src/unnamed/part_009 `CanRetry`/`IncrementRetry`)

The per-job lifecycle realised by the processing code:

* only `pending` jobs are picked up (`GetPendingJobs` selects
  `status = 'pending'`), and processing first moves the job to
  `processing`;
* a template/render failure marks the job `failed` without touching the
  retry count;
* a delivery failure increments the retry count (`IncrementRetryCount`)
  and marks the job `failed` in both branches of the retry check;
* a successful send marks the job `sent`;
* `RetryFailedJob` resets a `failed` job to `pending` only when
  `retryCount < maxRetries` (the `CanRetry` condition; `GetFailedJobs`
  likewise selects `retry_count < max_retries`).

Jobs are created `pending` with a zero retry count, and
`CreateEmailJob` defaults `MaxRetries` to 3 when unset, so the bound is
at least 1. -/

structure JobLifecycle where
  status : String
  retryCount : Nat
  maxRetries : Nat
deriving DecidableEq, Repr

/-- `EmailJob.CanRetry` (src/unnamed/part_009). -/
def canRetry (j : JobLifecycle) : Bool := j.retryCount < j.maxRetries

/-- `EmailJob.IncrementRetry` (src/unnamed/part_009). -/
def incrementRetry (j : JobLifecycle) : JobLifecycle :=
  { j with retryCount := j.retryCount + 1 }

/-- One observable transition of a job record.  The delivery-failure
transition increments the counter (`IncrementRetryCount`); the retry
transition is guarded by the `CanRetry` condition. -/
inductive JobStep : JobLifecycle → JobLifecycle → Prop where
  | markProcessing (rc mr : Nat) :
      JobStep (JobLifecycle.mk "pending" rc mr)
        (JobLifecycle.mk "processing" rc mr)
  | sendFailure (rc mr : Nat) :
      JobStep (JobLifecycle.mk "processing" rc mr)
        (JobLifecycle.mk "failed" (rc + 1) mr)
  | resolveFailure (rc mr : Nat) :
      JobStep (JobLifecycle.mk "processing" rc mr)
        (JobLifecycle.mk "failed" rc mr)
  | sendSuccess (rc mr : Nat) :
      JobStep (JobLifecycle.mk "processing" rc mr)
        (JobLifecycle.mk "sent" rc mr)
  | retryFailedJob (rc mr : Nat) :
      canRetry (JobLifecycle.mk "failed" rc mr) = true →
      JobStep (JobLifecycle.mk "failed" rc mr)
        (JobLifecycle.mk "pending" rc mr)

/-- Job records reachable from creation with retry bound `m`. -/
inductive JobReachable (m : Nat) : JobLifecycle → Prop where
  | created : JobReachable m (JobLifecycle.mk "pending" 0 m)
  | step {s t : JobLifecycle} : JobReachable m s → JobStep s t →
      JobReachable m t

/-- Strengthened invariant: the bound is preserved, the counter stays at
or below it, and a job that is eligible to be processed again is
strictly below it. -/
theorem jobReachable_invariant {m : Nat} (hm : 1 ≤ m) {s : JobLifecycle}
    (h : JobReachable m s) :
    s.maxRetries = m ∧ s.retryCount ≤ m ∧
      ((s.status = "pending" ∨ s.status = "processing") →
        s.retryCount < m) := by
  induction h with
  | created => exact ⟨rfl, Nat.zero_le m, fun _ => hm⟩
  | step hr hstep ih =>
    cases hstep with
    | markProcessing rc mr =>
      exact ⟨ih.1, ih.2.1, fun _ => ih.2.2 (Or.inl rfl)⟩
    | sendFailure rc mr =>
      have hlt : rc < m := ih.2.2 (Or.inr rfl)
      refine ⟨ih.1, ?_, fun hcon => ?_⟩
      · show rc + 1 ≤ m
        omega
      · rcases hcon with hcon | hcon <;> simp at hcon
    | resolveFailure rc mr =>
      refine ⟨ih.1, ih.2.1, fun hcon => ?_⟩
      rcases hcon with hcon | hcon <;> simp at hcon
    | sendSuccess rc mr =>
      refine ⟨ih.1, ih.2.1, fun hcon => ?_⟩
      rcases hcon with hcon | hcon <;> simp at hcon
    | retryFailedJob rc mr hc =>
      have hmr : mr = m := ih.1
      simp only [canRetry, decide_eq_true_eq] at hc
      have hc' : rc < mr := hc
      refine ⟨ih.1, ih.2.1, fun _ => ?_⟩
      show rc < m
      omega

/-- Any transition that increments the attempt counter — a delivery
failure — leaves the job in exactly the `failed` status. -/
theorem jobStep_increment_failed {s t : JobLifecycle} (h : JobStep s t)
    (hinc : t.retryCount = s.retryCount + 1) : t.status = "failed" := by
  cases h <;> simp_all

/-- C3: in every reachable job state the attempt counter is at most the
max-attempts bound, and every transition that increments the counter — a
delivery failure — leaves the job in exactly the `failed` status. -/
theorem c3_retry_bound (m : Nat) (hm : 1 ≤ m) (s : JobLifecycle)
    (h : JobReachable m s) :
    s.retryCount ≤ s.maxRetries ∧
      (∀ t, JobStep s t → t.retryCount = s.retryCount + 1 →
        t.status = "failed") := by
  obtain ⟨h1, h2, _⟩ := jobReachable_invariant hm h
  exact ⟨by omega, fun t hstep hinc => jobStep_increment_failed hstep hinc⟩

/-- Witness for C3: a job that failed once and was retried, with the
default bound of 3. -/
theorem c3_retry_bound_witness :
    1 ≤ 3
    ∧ ((JobLifecycle.mk "pending" 1 3).retryCount ≤
        (JobLifecycle.mk "pending" 1 3).maxRetries
      ∧ (∀ t, JobStep (JobLifecycle.mk "pending" 1 3) t →
          t.retryCount = (JobLifecycle.mk "pending" 1 3).retryCount + 1 →
          t.status = "failed")) :=
  ⟨by omega,
    c3_retry_bound 3 (by omega) (JobLifecycle.mk "pending" 1 3)
      (JobReachable.step
        (JobReachable.step
          (JobReachable.step JobReachable.created
            (JobStep.markProcessing 0 3))
          (JobStep.sendFailure 0 3))
        (JobStep.retryFailedJob 1 3 (by decide)))⟩

/-! ### Template store and job creation
(src/unnamed/part_012 `EmailTemplateRepository.GetByName`,
email-worker/services/email_service.go `SendEmail` /
`SendEmailRequest.Validate`, src/unnamed/part_013 `NewEmailJob`)

`GetByName` runs
`SELECT ... FROM email_templates WHERE name = $1 AND is_active = true`,
so a template that is absent or inactive alike yields `sql.ErrNoRows`,
reported as `template not found`.  The template table is modelled as the
list of its rows; the query returns the first row satisfying the WHERE
clause. -/

structure EmailTemplate where
  id : Int
  name : String
  subject : String
  htmlContent : String
  textContent : String
  declaredVariables : String
  isActive : Bool
deriving DecidableEq, Repr

/-- `EmailTemplateRepository.GetByName`. -/
def getByName (db : List EmailTemplate) (name : String) :
    Except String EmailTemplate :=
  match (db.filter (fun t => decide (t.name = name) && t.isActive)).head? with
  | some t => Except.ok t
  | none => Except.error ("template not found: " ++ name)

/-- `SendEmailRequest` (email-worker/services/email_service.go). -/
structure SendEmailRequest where
  toAddrs : List String
  cc : List String
  bcc : List String
  templateName : String
  templateVars : List (String × String)
  priority : Int
deriving DecidableEq, Repr

/-- `SendEmailRequest.Validate`. -/
def SendEmailRequest.validate (r : SendEmailRequest) :
    Except String Unit :=
  if r.toAddrs.length = 0 then
    Except.error "at least one recipient is required"
  else if r.templateName = "" then
    Except.error "template name is required"
  else Except.ok ()

/-- The job record `SendEmail` persists (`models.EmailJob` of
src/unnamed/part_013, created by `NewEmailJob`). -/
structure DbEmailJob where
  id : String
  toAddrs : List String
  cc : List String
  bcc : List String
  templateName : String
  templateVars : List (String × String)
  status : String
  priority : Int
  retryCount : Int
  maxRetries : Int
  errorMessage : String
deriving DecidableEq, Repr

/-- `models.NewEmailJob`: a fresh pending job with zero retries and the
default bound of 3; the generated UUID is passed in. -/
def newEmailJob (uuid : String) (toAddrs cc bcc : List String)
    (templateName : String) (templateVars : List (String × String))
    (priority : Int) : DbEmailJob :=
  { id := uuid, toAddrs := toAddrs, cc := cc, bcc := bcc
  , templateName := templateName, templateVars := templateVars
  , status := "pending", priority := priority, retryCount := 0
  , maxRetries := 3, errorMessage := "" }

/-- The stores `SendEmail` can touch: the template table, the job table,
and the Redis queue (which this code path never writes). -/
structure EmailServiceState where
  templates : List EmailTemplate
  jobs : List DbEmailJob
  queue : List ZEntry
deriving DecidableEq, Repr

/-- `EmailService.SendEmail` (email-worker/services/email_service.go):
validate the request, resolve the template by name, reject inactive
templates, then create and persist the job. -/
def sendEmail (uuid : String) (r : SendEmailRequest)
    (st : EmailServiceState) :
    Except String DbEmailJob × EmailServiceState :=
  match r.validate with
  | Except.error e => (Except.error ("invalid request: " ++ e), st)
  | Except.ok _ =>
    match getByName st.templates r.templateName with
    | Except.error e =>
      (Except.error ("failed to get template: " ++ e), st)
    | Except.ok t =>
      if t.isActive = false then
        (Except.error ("template " ++ r.templateName ++ " is not active"),
         st)
      else
        let job := newEmailJob uuid r.toAddrs r.cc r.bcc r.templateName
          r.templateVars r.priority
        (Except.ok job, { st with jobs := st.jobs ++ [job] })

/-! The other creation path (src/unnamed/part_005,
`EmailService.validateJob` / `CreateEmailJob` over the
`database/models.EmailJob` record). -/

/-- The valid job types (`validTypes` in `validateJob`). -/
def validTypes : List String :=
  ["verification", "password_reset", "welcome", "security", "invitation",
   "notification"]

/-- `database/models.EmailJob` (email-worker/database/models/email_job.go),
the fields `validateJob` and `CreateEmailJob` read or write. -/
structure EmailJobRecord where
  id : Int
  jobType : String
  priority : Int
  status : String
  userID : String
  email : String
  subject : String
  templateID : String
  templateData : String
  provider : String
  retryCount : Int
  maxRetries : Int
  errorMessage : String
deriving DecidableEq, Repr

/-- `EmailService.validateJob`. -/
def validateJob (job : EmailJobRecord) : Except String Unit :=
  if job.email = "" then Except.error "email is required"
  else if job.templateID = "" then Except.error "template ID is required"
  else if job.jobType = "" then Except.error "job type is required"
  else if validTypes.contains job.jobType then Except.ok ()
  else Except.error ("invalid job type: " ++ job.jobType)

/-- `EmailService.CreateEmailJob`: validate, fill defaults
(status pending, priority normal = 2, max retries 3), persist. -/
def createEmailJob (job : EmailJobRecord)
    (store : List EmailJobRecord) :
    Except String EmailJobRecord × List EmailJobRecord :=
  match validateJob job with
  | Except.error e => (Except.error ("invalid job: " ++ e), store)
  | Except.ok _ =>
    let j1 := if job.status = "" then { job with status := "pending" }
      else job
    let j2 := if j1.priority = 0 then { j1 with priority := 2 } else j1
    let j3 := if j2.maxRetries = 0 then { j2 with maxRetries := 3 }
      else j2
    (Except.ok j3, store ++ [j3])

/-- A request failing validation is rejected before anything is read or
written. -/
theorem validate_fails_of_empty (r : SendEmailRequest)
    (h : r.toAddrs = [] ∨ r.templateName = "") :
    ∃ e, r.validate = Except.error e := by
  rcases h with h | h
  · exact ⟨"at least one recipient is required", by
      simp [SendEmailRequest.validate, h]⟩
  · by_cases hl : r.toAddrs.length = 0
    · exact ⟨"at least one recipient is required", by
        simp [SendEmailRequest.validate, hl]⟩
    · exact ⟨"template name is required", by
        simp [SendEmailRequest.validate, hl, h]⟩

/-- C6: a creation request with an empty recipient list, or without a
template reference (the only content source of a request), is rejected
synchronously with a validation error, and neither the job store nor the
queue is changed; likewise for the `CreateEmailJob` path with an empty
recipient or template reference. -/
theorem c6_invalid_request_rejected (uuid : String)
    (r : SendEmailRequest) (st : EmailServiceState)
    (job : EmailJobRecord) (store : List EmailJobRecord) :
    ((r.toAddrs = [] ∨ r.templateName = "") →
      (∃ e, (sendEmail uuid r st).1 = Except.error e)
      ∧ (sendEmail uuid r st).2 = st)
    ∧ ((job.email = "" ∨ job.templateID = "") →
      (∃ e, (createEmailJob job store).1 = Except.error e)
      ∧ (createEmailJob job store).2 = store) := by
  constructor
  · intro h
    obtain ⟨e, he⟩ := validate_fails_of_empty r h
    constructor
    · exact ⟨"invalid request: " ++ e, by simp [sendEmail, he]⟩
    · simp [sendEmail, he]
  · intro h
    have hv : ∃ e, validateJob job = Except.error e := by
      rcases h with h | h
      · exact ⟨"email is required", by simp [validateJob, h]⟩
      · by_cases hm : job.email = ""
        · exact ⟨"email is required", by simp [validateJob, hm]⟩
        · exact ⟨"template ID is required", by
            simp [validateJob, hm, h]⟩
    obtain ⟨e, he⟩ := hv
    constructor
    · exact ⟨"invalid job: " ++ e, by simp [createEmailJob, he]⟩
    · simp [createEmailJob, he]

/-- Witness for C6: a request without recipients, and a job without a
recipient email. -/
theorem c6_invalid_request_rejected_witness :
    ((SendEmailRequest.mk [] [] [] "welcome" [] 1).toAddrs = []
      ∨ (SendEmailRequest.mk [] [] [] "welcome" [] 1).templateName = "")
    ∧ (∃ e, (sendEmail "u1" (SendEmailRequest.mk [] [] [] "welcome" [] 1)
          (EmailServiceState.mk [] [] [])).1 = Except.error e)
    ∧ (sendEmail "u1" (SendEmailRequest.mk [] [] [] "welcome" [] 1)
        (EmailServiceState.mk [] [] [])).2 =
        EmailServiceState.mk [] [] [] := by
  refine ⟨Or.inl rfl, ?_⟩
  exact (c6_invalid_request_rejected "u1"
    (SendEmailRequest.mk [] [] [] "welcome" [] 1)
    (EmailServiceState.mk [] [] [])
    (EmailJobRecord.mk 0 "welcome" 0 "" "" "" "" "" "" "" 0 0 "")
    []).1 (Or.inl rfl)

/-- C7: resolving a template fails with the `template not found` error
both when no row has the requested name and when every row with that
name is inactive; a successfully resolved template is always active (so
an inactive template is never returned for rendering), and with only
inactive candidates `SendEmail` errors without persisting a job. -/
theorem c7_inactive_template_not_resolvable (db : List EmailTemplate)
    (name : String) (uuid : String) (r : SendEmailRequest)
    (st : EmailServiceState) :
    ((∀ t ∈ db, t.name ≠ name) →
      getByName db name = Except.error ("template not found: " ++ name))
    ∧ ((∀ t ∈ db, t.name = name → t.isActive = false) →
      getByName db name = Except.error ("template not found: " ++ name))
    ∧ (∀ t, getByName db name = Except.ok t →
        t.isActive = true ∧ t.name = name)
    ∧ ((∀ t ∈ st.templates, t.name = r.templateName →
          t.isActive = false) →
      (∃ e, (sendEmail uuid r st).1 = Except.error e)
      ∧ (sendEmail uuid r st).2 = st) := by
  have hkey : ∀ (l : List EmailTemplate) (nm : String),
      (∀ t ∈ l, t.name = nm → t.isActive = false) →
      getByName l nm = Except.error ("template not found: " ++ nm) := by
    intro l nm hl
    have hfil : l.filter (fun t => decide (t.name = nm) && t.isActive)
        = [] := by
      rw [List.filter_eq_nil_iff]
      intro t ht
      by_cases hn : t.name = nm
      · simp [hn, hl t ht hn]
      · simp [hn]
    simp [getByName, hfil]
  refine ⟨?_, ?_, ?_, ?_⟩
  · intro h
    exact hkey db name (fun t ht hn => absurd hn (h t ht))
  · exact hkey db name
  · intro t ht
    have hmem : t ∈ db.filter
        (fun t => decide (t.name = name) && t.isActive) := by
      unfold getByName at ht
      rcases hh : (db.filter
          (fun t => decide (t.name = name) && t.isActive)).head? with
        _ | ⟨t'⟩
      · rw [hh] at ht
        simp at ht
      · rw [hh] at ht
        simp at ht
        rw [← ht]
        exact List.mem_of_mem_head? hh
    have := List.of_mem_filter hmem
    simp at this
    exact ⟨this.2, this.1⟩
  · intro h
    match hv : r.validate with
    | Except.error e =>
      refine ⟨⟨"invalid request: " ++ e, ?_⟩, ?_⟩ <;>
        simp [sendEmail, hv]
    | Except.ok _ =>
      have hg := hkey st.templates r.templateName h
      refine ⟨⟨"failed to get template: " ++
        ("template not found: " ++ r.templateName), ?_⟩, ?_⟩ <;>
        simp [sendEmail, hv, hg]

/-- Witness for C7: a store holding only an inactive `welcome` template
rejects resolution and persists nothing. -/
theorem c7_inactive_template_not_resolvable_witness :
    (∀ t ∈ [EmailTemplate.mk 1 "welcome" "Hi" "" "b" "" false],
      t.name = "welcome" → t.isActive = false)
    ∧ getByName [EmailTemplate.mk 1 "welcome" "Hi" "" "b" "" false]
        "welcome" = Except.error ("template not found: " ++ "welcome") := by
  refine ⟨by decide, ?_⟩
  exact (c7_inactive_template_not_resolvable
    [EmailTemplate.mk 1 "welcome" "Hi" "" "b" "" false] "welcome" "u1"
    (SendEmailRequest.mk ["a@b.c"] [] [] "welcome" [] 1)
    (EmailServiceState.mk [] [] [])).2.1 (by decide)

/-! ### EmailVerificationService.GeneratePinCode (src/unnamed/part_005)

`GeneratePinCode` draws `randomNum = rand.Int(rand.Reader, max - min)`
with `max = 999999` and `min = 100000`, so `randomNum` is uniform on
`[0, 899999)`; the PIN is `randomNum + min`, returned as its decimal
numeral (`pinCode.String()`). -/

def generatePinCode (randomNum : Nat) : Nat := randomNum + 100000

/-- C10: whenever `GeneratePinCode` returns without error, the returned
numeral denotes an integer between 100000 and 999999 and is exactly six
decimal digits long. -/
theorem c10_pin_code_six_digits (randomNum : Nat)
    (h : randomNum < 899999) :
    100000 ≤ generatePinCode randomNum
    ∧ generatePinCode randomNum ≤ 999999
    ∧ (Nat.digits 10 (generatePinCode randomNum)).length = 6 := by
  have h1 : 100000 ≤ generatePinCode randomNum := by
    unfold generatePinCode
    omega
  have h2 : generatePinCode randomNum < 1000000 := by
    unfold generatePinCode
    omega
  refine ⟨h1, by omega, ?_⟩
  have e5 : (10 : Nat) ^ 5 = 100000 := by norm_num
  have e6 : (10 : Nat) ^ (5 + 1) = 1000000 := by norm_num
  have hlog : Nat.log 10 (generatePinCode randomNum) = 5 :=
    Nat.log_eq_of_pow_le_of_lt_pow (e5 ▸ h1) (e6 ▸ h2)
  rw [Nat.digits_len 10 _ (by norm_num) (by omega), hlog]

/-- Witness for C10: the draw 123456 yields the PIN 223456. -/
theorem c10_pin_code_six_digits_witness :
    123456 < 899999
    ∧ (100000 ≤ generatePinCode 123456
      ∧ generatePinCode 123456 ≤ 999999
      ∧ (Nat.digits 10 (generatePinCode 123456)).length = 6) :=
  ⟨by omega, c10_pin_code_six_digits 123456 (by omega)⟩

end EmailWorker
